import Mathlib

/-!
Verification development for the tirs DUSB calculator-link protocol stack.

Bytes are modelled as `Nat` (values < 256 on real wires); machine-integer
casts are made explicit with `% 2^w` where the source truncates.  Fallible
Rust code returns `Except Err`; a Rust panic (slice out of range, `unwrap`
on `None`) is modelled by the distinguished error `Err.panic`, and a
transport / `read_exact` failure by `Err.ioError`.
-/

/-- Big-endian two-byte encoding of a 16-bit value (Rust `u16::to_be_bytes`;
the per-byte reductions make `be16 n = be16 (n % 2^16)`, matching an `as u16`
cast before encoding). -/
def be16 (n : Nat) : List Nat := [n / 256 % 256, n % 256]

/-- Big-endian four-byte encoding of a 32-bit value (Rust `u32::to_be_bytes`;
`be32 n = be32 (n % 2^32)`, matching an `as u32` cast before encoding). -/
def be32 (n : Nat) : List Nat :=
  [n / 16777216 % 256, n / 65536 % 256, n / 256 % 256, n % 256]

/-- Embeds `util::u16_from_bytes`: big-endian `u16` from exactly two bytes.
All call sites in the source pass exactly two bytes; the fallback is dead. -/
def u16_from_bytes : List Nat → Nat
  | [a, b] => a * 256 + b
  | _ => 0

/-- Embeds `util::u32_from_bytes`: big-endian `u32` from exactly four bytes.
All call sites in the source pass exactly four bytes; the fallback is dead. -/
def u32_from_bytes : List Nat → Nat
  | [a, b, c, d] => ((a * 256 + b) * 256 + c) * 256 + d
  | _ => 0

/-- Raw packet kinds, from `raw.rs` `RawPacketKind` (wire ids 1..5). -/
inductive RawPacketKind where
  | BufSizeReq
  | BufSizeAlloc
  | VirtData
  | VirtDataLast
  | VirtDataAck
deriving DecidableEq

/-- Virtual packet kinds, from the discriminants of `vtl.rs` `VirtualPacket`. -/
inductive VirtualPacketKind where
  | SetMode
  | ParameterRequest
  | ParameterResponse
  | DirectoryRequest
  | VariableHeader
  | RequestVariable
  | VariableContents
  | SetModeAcknowledge
  | Wait
  | EndOfTransmission
  | Error
deriving DecidableEq

/-- Embeds the strum-derived `VirtualPacketKind::from_repr` over the
`#[repr(u16)]` discriminants declared in `vtl.rs`. -/
def VirtualPacketKind.from_repr (n : Nat) : Option VirtualPacketKind :=
  match n with
  | 0x0001 => some .SetMode
  | 0x0007 => some .ParameterRequest
  | 0x0008 => some .ParameterResponse
  | 0x0009 => some .DirectoryRequest
  | 0x000a => some .VariableHeader
  | 0x000c => some .RequestVariable
  | 0x000d => some .VariableContents
  | 0x0012 => some .SetModeAcknowledge
  | 0xbb00 => some .Wait
  | 0xdd00 => some .EndOfTransmission
  | 0xee00 => some .Error
  | _ => none

/-- The closed device-error set, from `vtl.rs` `DeviceError`. -/
inductive DeviceError where
  | InvalidArgument
  | AppDeleteFail
  | InvalidCode
  | WrongMode
  | OutOfMemory
  | InvalidFolderName
  | InvalidName
  | Busy
  | VariableUnwritable
  | ModeTooSmall
  | ModeTooLarge
  | InvalidParameter
  | RemoteControl
  | BatteryLow
  | HandheldBusy
deriving DecidableEq

/-- Embeds the strum-derived `DeviceError::from_repr` over the `#[repr(u16)]`
codes declared in `vtl.rs`. -/
def DeviceError.from_repr (n : Nat) : Option DeviceError :=
  match n with
  | 0x04 => some .InvalidArgument
  | 0x06 => some .AppDeleteFail
  | 0x08 => some .InvalidCode
  | 0x09 => some .WrongMode
  | 0x0c => some .OutOfMemory
  | 0x0d => some .InvalidFolderName
  | 0x0e => some .InvalidName
  | 0x11 => some .Busy
  | 0x12 => some .VariableUnwritable
  | 0x1c => some .ModeTooSmall
  | 0x1d => some .ModeTooLarge
  | 0x22 => some .InvalidParameter
  | 0x29 => some .RemoteControl
  | 0x2b => some .BatteryLow
  | 0x34 => some .HandheldBusy
  | _ => none

/-- Error outcomes of the stack.  `wrongRawKind` and `wrongVtlKind` embed the
`WrongPacketKind` structs of `raw.rs` and `vtl.rs` (carrying expected and
received kinds); `unknownRawKind` and `unknownVtlKind` embed the two
`UnknownPacketKindError` types; `invalidPayload` embeds `raw::InvalidPayload`;
`deviceError` embeds a surfaced `DeviceError`; `ioError` stands for a
transport or `read_exact` failure; `panic` stands for a Rust panic. -/
inductive Err where
  | wrongRawKind (expected received : RawPacketKind)
  | wrongVtlKind (expected received : VirtualPacketKind)
  | unknownRawKind (k : Nat)
  | unknownVtlKind (k : Nat)
  | invalidPayload
  | deviceError (e : DeviceError)
  | ioError
  | panic
deriving DecidableEq

/-- The raw-packet enum of `raw.rs` (named `RawPackets` there, used as
`RawPacket` by `main.rs` and `vtl.rs`). -/
inductive RawPacket where
  | RequestBufSize (size : Nat)
  | RespondBufSize (size : Nat)
  | VirtualData (payload : List Nat)
  | FinalVirtData (payload : List Nat)
  | VirtualDataAcknowledge (contents : Nat)
deriving DecidableEq

/-- Embeds `RawPackets::kind`. -/
def RawPacket.kind : RawPacket → RawPacketKind
  | .RequestBufSize _ => .BufSizeReq
  | .RespondBufSize _ => .BufSizeAlloc
  | .VirtualData _ => .VirtData
  | .FinalVirtData _ => .VirtDataLast
  | .VirtualDataAcknowledge _ => .VirtDataAck

/-- Embeds `RawPackets::from_payload`: dispatch on the kind byte.  The slices
`payload[0..4]` and `payload[0..2]` panic when the payload is shorter. -/
def RawPacket.from_payload (kind : Nat) (payload : List Nat) : Except Err RawPacket :=
  match kind with
  | 1 =>
    if payload.length < 4 then .error .panic
    else .ok (.RequestBufSize (u32_from_bytes (payload.take 4)))
  | 2 =>
    if payload.length < 4 then .error .panic
    else .ok (.RespondBufSize (u32_from_bytes (payload.take 4)))
  | 3 => .ok (.VirtualData payload)
  | 4 => .ok (.FinalVirtData payload)
  | 5 =>
    if payload.length < 2 then .error .panic
    else .ok (.VirtualDataAcknowledge (u16_from_bytes (payload.take 2)))
  | x => .error (.unknownRawKind x)

/-- Embeds `RawPackets::receive`: read a 4-byte big-endian length, a 1-byte
kind, then exactly `length` payload bytes (each an exact-length read that
fails when the stream is exhausted), and dispatch through `from_payload`.
Returns the parsed packet and the unread remainder of the inbound stream. -/
def RawPacket.receive (s : List Nat) : Except Err (RawPacket × List Nat) :=
  if s.length < 4 then .error .ioError else
  if (s.drop 4).length < 1 then .error .ioError else
  if ((s.drop 4).drop 1).length < u32_from_bytes (s.take 4) then .error .ioError else
  match RawPacket.from_payload ((s.drop 4).headD 0)
      (((s.drop 4).drop 1).take (u32_from_bytes (s.take 4))) with
  | .error e => .error e
  | .ok p => .ok (p, ((s.drop 4).drop 1).drop (u32_from_bytes (s.take 4)))

theorem receive_rest_lt (s : List Nat) (p : RawPacket) (rest : List Nat)
    (h : RawPacket.receive s = .ok (p, rest)) : rest.length < s.length := by
  unfold RawPacket.receive at h
  split_ifs at h with h1 h2 h3
  split at h
  · exact absurd h (by simp)
  · simp only [Except.ok.injEq, Prod.mk.injEq] at h
    obtain ⟨-, rfl⟩ := h
    simp only [List.length_drop] at h2 ⊢
    omega

/-- Outcome of `Calculator::negotiate_packet_size` (`main.rs`): the raw
packets sent, the session's `max_raw_packet_size` after the call (unchanged
when the call fails), and the call's result. -/
structure NegotiateOut where
  sent : List RawPacket
  finalMax : Nat
  result : Except Err Unit

/-- Embeds `Calculator::negotiate_packet_size`: send `RequestBufSize(max)`,
receive exactly one raw packet expecting kind `BufSizeAlloc`
(`receive_exact`), and on `RespondBufSize(size)` clamp any size above 1018
down to 1018 and store it as the session's max raw packet size.  `curMax` is
the session's max raw packet size before the call; `s` is the inbound byte
stream. -/
def negotiate_packet_size (curMax max : Nat) (s : List Nat) : NegotiateOut :=
  let sent := [RawPacket.RequestBufSize max]
  match RawPacket.receive s with
  | .error e => ⟨sent, curMax, .error e⟩
  | .ok (p, _) =>
    if p.kind ≠ RawPacketKind.BufSizeAlloc then
      ⟨sent, curMax, .error (.wrongRawKind .BufSizeAlloc p.kind)⟩
    else
      match p with
      | .RespondBufSize size =>
        let size := if size > 1018 then 1018 else size
        ⟨sent, size, .ok ()⟩
      | p => ⟨sent, curMax, .error (.wrongRawKind .BufSizeAlloc p.kind)⟩

/-- Embeds `Calculator::new`: the session starts with
`max_raw_packet_size = 1019` and immediately runs
`negotiate_packet_size(1019)`. -/
def calculator_new (s : List Nat) : NegotiateOut :=
  negotiate_packet_size 1019 1019 s

/-- Embeds `VirtualPacket::wait_for_acknowledge` over the successive results
of `RawPacket::receive` (the packet script): on `RequestBufSize` reply with
`RespondBufSize(max)` (a send that does not affect the returned result) and
wait again; on `VirtualDataAcknowledge` require the sentinel payload
`0xE000`, failing with `InvalidPayload` otherwise; any other kind fails with
`WrongPacketKind` expecting `VirtDataAck`; an exhausted transport is an I/O
failure. -/
def wait_for_acknowledge (maxSize : Nat) : List RawPacket → Except Err Unit
  | [] => .error .ioError
  | .RequestBufSize _ :: rest => wait_for_acknowledge maxSize rest
  | .VirtualDataAcknowledge contents :: _ =>
    if contents ≠ 0xe000 then .error .invalidPayload else .ok ()
  | p :: _ => .error (.wrongRawKind .VirtDataAck p.kind)

/-- Embeds Rust's `slice::chunks(m)`: successive chunks of `m` bytes, the
last possibly shorter; no chunks for an empty slice.  (`chunks(0)` panics in
Rust; here it yields no chunks, and every caller requires `0 < m`.) -/
def chunksList (m : Nat) (bytes : List Nat) : List (List Nat) :=
  if h : bytes = [] ∨ m = 0 then []
  else bytes.take m :: chunksList m (bytes.drop m)
termination_by bytes.length
decreasing_by
  push_neg at h
  have h1 : bytes.length ≠ 0 := by
    intro hl
    exact h.1 (List.eq_nil_of_length_eq_zero hl)
  simp only [List.length_drop]
  omega

/-- The fragment-marking loop of `VirtualPacket::into_raw_packets`: every
chunk but the last becomes a `VirtualData` fragment, the last becomes
`FinalVirtData`. -/
def markLast : List (List Nat) → List RawPacket
  | [] => []
  | [c] => [.FinalVirtData c]
  | c :: c2 :: rest => .VirtualData c :: markLast (c2 :: rest)

/-- Embeds `VirtualPacket::into_raw_packets` after `into_payload`: prefix the
payload bytes with `[length as u32 (big-endian)][kind as u16 (big-endian)]`,
split into chunks of at most `maxSize` bytes, and mark all but the last as
`VirtualData` with the last as `FinalVirtData`.  `kindCode` is the `u16`
discriminant of the virtual-packet kind; `contents` is the encoded payload. -/
def into_raw_packets (kindCode : Nat) (contents : List Nat) (maxSize : Nat) :
    List RawPacket :=
  let bytes := be32 contents.length ++ be16 kindCode ++ contents
  markLast (chunksList maxSize bytes)

/-- Embeds the loop of `VirtualPacket::receive_bytes` over the successive
results of `RawPacket::receive`: append each `VirtualData` payload to the
accumulator; on `FinalVirtData` append its payload and stop (the code also
replies with `VirtualDataAcknowledge(0xE000)` after each fragment, a send
that does not affect the returned bytes); any other kind fails with
`WrongPacketKind` (the code reports `expected: VirtDataAck` there); an
exhausted transport is an I/O failure. -/
def receive_bytes (acc : List Nat) : List RawPacket → Except Err (List Nat)
  | [] => .error .ioError
  | .VirtualData payload :: rest => receive_bytes (acc ++ payload) rest
  | .FinalVirtData payload :: _ => .ok (acc ++ payload)
  | p :: _ => .error (.wrongRawKind .VirtDataAck p.kind)

/-- The header-slicing portion of `VirtualPacket::receive` on the reassembled
byte stream: `size` from `bytes[0..4]`, `kind` from `bytes[4..6]`, payload
`bytes[6..6+size]`; each slice panics when the stream is shorter than the
sliced range. -/
def sliceHeader (bytes : List Nat) : Except Err (Nat × List Nat) :=
  if bytes.length < 4 then .error .panic else
  if bytes.length < 6 then .error .panic else
  if bytes.length < 6 + u32_from_bytes (bytes.take 4) then .error .panic else
  .ok (u16_from_bytes ((bytes.drop 4).take 2),
       (bytes.drop 6).take (u32_from_bytes (bytes.take 4)))

/-- Embeds the current-generation `Variable` used by `main.rs`.  The struct
itself lives in the `dusb` module, whose current-generation source is not in
the tree.  Modelled from the spec: a name (text, here its bytes) plus an
ordered list of attribute entries; attribute values are kept as their raw
id/payload pairs because `VariableAttribute` decoding also lives in the
missing module. -/
structure Variable where
  name : List Nat
  attributes : List (Nat × List Nat)
deriving DecidableEq

/-- The virtual-packet enum of `vtl.rs`.  Payload types defined in the
missing `dusb` module (`Mode`, `ParameterKind`, `Parameter`,
`VariableAttribute`) are kept as the raw bytes or id/payload pairs the
`vtl.rs` parsing produces just before handing them to that module. -/
inductive VirtualPacket where
  | SetMode (modeBytes : List Nat)
  | ParameterRequest (ids : List Nat)
  | ParameterResponse (params : List (Nat × List Nat))
  | DirectoryRequest (attributeIds : List Nat)
  | RequestVariable (name : List Nat) (requestedIds : List Nat)
      (specified : List (Nat × List Nat))
  | VariableHeader (v : Variable)
  | VariableContents (bytes : List Nat)
  | SetModeAcknowledge
  | Wait (ms : Nat)
  | EndOfTransmission
  | Error (e : DeviceError)
deriving DecidableEq

/-- Embeds the strum-derived `VirtualPacketKind::from(&VirtualPacket)`
discriminant projection (the `.into()` used when reporting wrong kinds). -/
def VirtualPacket.kind : VirtualPacket → VirtualPacketKind
  | .SetMode _ => .SetMode
  | .ParameterRequest _ => .ParameterRequest
  | .ParameterResponse _ => .ParameterResponse
  | .DirectoryRequest _ => .DirectoryRequest
  | .RequestVariable _ _ _ => .RequestVariable
  | .VariableHeader _ => .VariableHeader
  | .VariableContents _ => .VariableContents
  | .SetModeAcknowledge => .SetModeAcknowledge
  | .Wait _ => .Wait
  | .EndOfTransmission => .EndOfTransmission
  | .Error _ => .Error

/-- The `chunks_exact(2)` / `u16_from_bytes` mapping used by the
`ParameterRequest` arm of `VirtualPacket::from_payload`: successive
big-endian 16-bit values, discarding a trailing odd byte. -/
def u16Pairs : List Nat → List Nat
  | a :: b :: rest => (a * 256 + b) :: u16Pairs rest
  | _ => []

/-- The `ParameterResponse` entry loop of `VirtualPacket::from_payload`: for
each of `amount` entries read `id:u16` and a validity byte; entries with a
non-zero validity byte are skipped without reading any data; valid entries
read `length:u16` (with `0` standing for 153600) and that many data bytes.
Entries are kept as raw id/data pairs: the `ParameterKind` table and
`Parameter::from_payload` live in the missing `dusb` module.  A short read
is an I/O failure, as with the cursor reads in the source. -/
def parseParamEntries : Nat → List Nat → Except Err (List (Nat × List Nat))
  | 0, _ => .ok []
  | amount + 1, s =>
    if s.length < 3 then .error .ioError else
    let id := u16_from_bytes (s.take 2)
    let validity := (s.drop 2).headD 0
    let s := (s.drop 2).drop 1
    if validity ≠ 0 then parseParamEntries amount s
    else
      if s.length < 2 then .error .ioError else
      let len := if u16_from_bytes (s.take 2) = 0 then 153600
                 else u16_from_bytes (s.take 2)
      let s := s.drop 2
      if s.length < len then .error .ioError else
      match parseParamEntries amount (s.drop len) with
      | .error e => .error e
      | .ok rest => .ok ((id, s.take len) :: rest)

/-- The `VariableHeader` attribute loop of `VirtualPacket::from_payload`:
for each of `count` attributes read `id:u16` and a validity byte; valid
entries (validity byte `0`) read `length:u16` and that many data bytes and
are kept; invalid entries read nothing further and are dropped.  Attribute
values are kept as raw id/data pairs: the `VariableAttributeKind` table and
`VariableAttribute::from_payload` live in the missing `dusb` module. -/
def parseAttrEntries : Nat → List Nat → Except Err (List (Nat × List Nat))
  | 0, _ => .ok []
  | count + 1, s =>
    if s.length < 3 then .error .ioError else
    let id := u16_from_bytes (s.take 2)
    let validity := (s.drop 2).headD 0
    let s := (s.drop 2).drop 1
    if validity ≠ 0 then parseAttrEntries count s
    else
      if s.length < 2 then .error .ioError else
      let len := u16_from_bytes (s.take 2)
      let s := s.drop 2
      if s.length < len then .error .ioError else
      match parseAttrEntries count (s.drop len) with
      | .error e => .error e
      | .ok rest => .ok ((id, s.take len) :: rest)

/-- Embeds `VirtualPacket::from_payload`: decode the sliced logical payload
according to the virtual-packet kind.  Cursor or slice reads past the end of
the payload fail as in the source (`?`-propagated I/O errors for cursor
reads, panics for direct slicing); the `DirectoryRequest` and
`RequestVariable` kinds hit the source's `todo!()`, a panic; an `Error`
payload whose 16-bit code is outside the `DeviceError` set hits
`DeviceError::from_repr(..).unwrap()`, a panic. -/
def VirtualPacket.from_payload :
    VirtualPacketKind → List Nat → Except Err VirtualPacket
  | .SetMode, payload =>
    if payload.length < 2 then .error .panic
    else .ok (.SetMode (payload.take 2))
  | .ParameterRequest, payload =>
    if payload.length < 2 then .error .panic
    else
      let amount := u16_from_bytes (payload.take 2)
      .ok (.ParameterRequest ((u16Pairs payload).drop 1 |>.take amount))
  | .ParameterResponse, payload =>
    if payload.length < 2 then .error .ioError
    else
      match parseParamEntries (u16_from_bytes (payload.take 2)) (payload.drop 2) with
      | .error e => .error e
      | .ok params => .ok (.ParameterResponse params)
  | .VariableHeader, payload =>
    if payload.length < 2 then .error .ioError else
    let nameLen := u16_from_bytes (payload.take 2)
    let s := payload.drop 2
    if s.length < nameLen then .error .ioError else
    let name := s.take nameLen
    let s := s.drop nameLen
    if s.length < 1 then .error .ioError else
    let s := s.drop 1
    if s.length < 2 then .error .ioError else
    let count := u16_from_bytes (s.take 2)
    match parseAttrEntries count (s.drop 2) with
    | .error e => .error e
    | .ok attrs => .ok (.VariableHeader ⟨name, attrs⟩)
  | .VariableContents, payload => .ok (.VariableContents payload)
  | .SetModeAcknowledge, _ => .ok .SetModeAcknowledge
  | .Wait, payload =>
    if payload.length < 4 then .error .ioError
    else .ok (.Wait (u32_from_bytes (payload.take 4)))
  | .EndOfTransmission, _ => .ok .EndOfTransmission
  | .Error, payload =>
    if payload.length < 2 then .error .ioError
    else
      match DeviceError.from_repr (u16_from_bytes (payload.take 2)) with
      | some e => .ok (.Error e)
      | none => .error .panic
  | .DirectoryRequest, _ => .error .panic
  | .RequestVariable, _ => .error .panic

/-- The tail of `VirtualPacket::receive` after reassembly: slice the declared
header and payload out of the reassembled bytes, look the 16-bit kind up
(failing with the typed `UnknownPacketKindError` on an unknown kind), and
dispatch `from_payload`. -/
def decode_assembled (bytes : List Nat) : Except Err VirtualPacket :=
  match sliceHeader bytes with
  | .error e => .error e
  | .ok (kindCode, payload) =>
    match VirtualPacketKind.from_repr kindCode with
    | none => .error (.unknownVtlKind kindCode)
    | some kind => VirtualPacket.from_payload kind payload

/-- Embeds `VirtualPacket::receive`: reassemble fragment payloads from the
successive raw packets, then decode. -/
def VirtualPacket.receive (packets : List RawPacket) : Except Err VirtualPacket :=
  match receive_bytes [] packets with
  | .error e => .error e
  | .ok bytes => decode_assembled bytes

/-- Embeds the receive loop of `Calculator::request_directory` over the
successive results of `VirtualPacket::receive` (the `inbound` script), with
the accumulated variables and the count of 100 ms sleeps performed so far.
One `Wait` is absorbed per iteration (sleep, then receive again); the packet
then in hand is dispatched: `VariableHeader` accumulates, `EndOfTransmission`
returns the accumulated list, and anything else — including an `Error`
packet or a second consecutive `Wait` — fails with `WrongPacketKind`
expecting `VariableHeader`.  An exhausted script is a transport failure. -/
def request_directory_loop (vars : List Variable) (sleeps : Nat) :
    List VirtualPacket → Except Err (List Variable × Nat)
  | [] => .error .ioError
  | .Wait _ :: [] => .error .ioError
  | .Wait _ :: q :: rest =>
    match q with
    | .VariableHeader v => request_directory_loop (vars ++ [v]) (sleeps + 1) rest
    | .EndOfTransmission => .ok (vars, sleeps + 1)
    | q => .error (.wrongVtlKind .VariableHeader q.kind)
  | p :: rest =>
    match p with
    | .VariableHeader v => request_directory_loop (vars ++ [v]) sleeps rest
    | .EndOfTransmission => .ok (vars, sleeps)
    | q => .error (.wrongVtlKind .VariableHeader q.kind)

/-- Embeds `Calculator::request_directory` after the `DirectoryRequest` send:
the receive loop starting from an empty accumulator.  The result pairs the
returned variables with the number of 100 ms sleeps performed. -/
def request_directory (inbound : List VirtualPacket) :
    Except Err (List Variable × Nat) :=
  request_directory_loop [] 0 inbound

/-- The session state touched by `impl Read for Calculator` (`main.rs`):
the negotiated max raw packet size and the read-ahead byte buffer. -/
structure Calculator where
  max_raw_packet_size : Nat
  buffer : List Nat
deriving DecidableEq

/-- Result of one `Calculator::read` call: the bytes produced, the state
after the call, the unconsumed transport script, and the number of transport
bulk reads performed during the call. -/
structure ReadOut where
  data : List Nat
  calcState : Calculator
  transport : List (List Nat)
  reads : Nat
deriving DecidableEq

/-- Embeds `Calculator::read` (`impl Read for Calculator`).  `transport` is a
script of `read_bulk` results (the bytes each transport bulk read returns,
capped at the 1024-byte buffer the code allocates).  In order, as in the
source: when the request exceeds a non-empty read-ahead buffer, drain the
buffer and return its contents; when the request exceeds the negotiated max
raw packet size, retry with the request truncated to that size; refill the
buffer from one transport bulk read only when it is empty (an exhausted
script standing for a transport failure); then `split_at` the requested
count, which panics when fewer bytes are buffered than requested. -/
def calcRead (c : Calculator) (n : Nat) (transport : List (List Nat)) :
    Except Err ReadOut :=
  if c.buffer.length < n ∧ c.buffer ≠ [] then
    .ok ⟨c.buffer, ⟨c.max_raw_packet_size, []⟩, transport, 0⟩
  else if hmax : c.max_raw_packet_size < n then
    calcRead c c.max_raw_packet_size transport
  else if c.buffer.isEmpty then
    match transport with
    | [] => .error .ioError
    | chunk :: rest =>
      if (chunk.take 1024).length < n then .error .panic
      else .ok ⟨(chunk.take 1024).take n,
                ⟨c.max_raw_packet_size, (chunk.take 1024).drop n⟩, rest, 1⟩
  else
    if c.buffer.length < n then .error .panic
    else .ok ⟨c.buffer.take n, ⟨c.max_raw_packet_size, c.buffer.drop n⟩,
              transport, 0⟩
termination_by n

/-- Number of transport bulk reads performed by a `Calculator::read` call
(zero when the call fails before reading, which also covers the failure
paths that perform none). -/
def readsOf : Except Err ReadOut → Nat
  | .ok o => o.reads
  | .error _ => 0

/-- Number of bytes a `Calculator::read` call produced (zero on failure). -/
def dataLenOf : Except Err ReadOut → Nat
  | .ok o => o.data.length
  | .error _ => 0

theorem length_be32 (n : Nat) : (be32 n).length = 4 := rfl

theorem length_be16 (n : Nat) : (be16 n).length = 2 := rfl

theorem u32_be32 (n : Nat) (h : n < 2 ^ 32) : u32_from_bytes (be32 n) = n := by
  simp only [be32, u32_from_bytes]
  omega

theorem u16_be16 (n : Nat) (h : n < 2 ^ 16) : u16_from_bytes (be16 n) = n := by
  simp only [be16, u16_from_bytes]
  omega

theorem chunksList_flatten (m : Nat) (bytes : List Nat) (hm : 0 < m) :
    (chunksList m bytes).flatten = bytes := by
  induction bytes using chunksList.induct m with
  | case1 bytes h =>
    rw [chunksList]
    rcases h with h | h
    · simp [h]
    · omega
  | case2 bytes h ih =>
    rw [chunksList]
    simp only [dif_neg h]
    simp [List.flatten, ih, List.take_append_drop]

theorem chunksList_ne_nil (m : Nat) (bytes : List Nat) (hb : bytes ≠ []) :
    chunksList m bytes ≠ [] ∨ m = 0 := by
  by_cases hm : m = 0
  · exact Or.inr hm
  · left
    rw [chunksList]
    simp [hb, hm]

theorem receive_bytes_markLast (cs : List (List Nat)) (acc : List Nat)
    (h : cs ≠ []) :
    receive_bytes acc (markLast cs) = .ok (acc ++ cs.flatten) := by
  induction cs generalizing acc with
  | nil => exact absurd rfl h
  | cons c rest ih =>
    cases rest with
    | nil => simp [markLast, receive_bytes]
    | cons c2 rest2 =>
      rw [markLast, receive_bytes, ih (acc ++ c) (by simp)]
      simp

theorem sliceHeader_encode (k : Nat) (p extra : List Nat)
    (hk : k < 2 ^ 16) (hp : p.length < 2 ^ 32) :
    sliceHeader (be32 p.length ++ be16 k ++ p ++ extra) = .ok (k, p) := by
  have hassoc : be32 p.length ++ be16 k ++ p ++ extra
      = be32 p.length ++ (be16 k ++ (p ++ extra)) := by
    simp [List.append_assoc]
  have htake4 : (be32 p.length ++ (be16 k ++ (p ++ extra))).take 4 = be32 p.length :=
    List.take_left' (length_be32 _)
  have hdrop4 : (be32 p.length ++ (be16 k ++ (p ++ extra))).drop 4
      = be16 k ++ (p ++ extra) :=
    List.drop_left' (length_be32 _)
  have htake2 : (be16 k ++ (p ++ extra)).take 2 = be16 k :=
    List.take_left' (length_be16 _)
  have hdrop2 : (be16 k ++ (p ++ extra)).drop 2 = p ++ extra :=
    List.drop_left' (length_be16 _)
  have hdrop6 : (be32 p.length ++ (be16 k ++ (p ++ extra))).drop 6 = p ++ extra := by
    have h24 : (6 : Nat) = 4 + 2 := rfl
    rw [h24, ← List.drop_drop, hdrop4, hdrop2]
  have hlen : (be32 p.length ++ (be16 k ++ (p ++ extra))).length
      = 6 + p.length + extra.length := by
    simp [length_be32, length_be16]
    omega
  rw [hassoc]
  unfold sliceHeader
  rw [htake4, u32_be32 _ hp, hlen, hdrop4, htake2, u16_be16 _ hk, hdrop6]
  have h4 : ¬(6 + p.length + extra.length < 4) := by omega
  have h6 : ¬(6 + p.length + extra.length < 6) := by omega
  have h6s : ¬(6 + p.length + extra.length < 6 + p.length) := by omega
  rw [if_neg h4, if_neg h6, if_neg h6s]
  congr 1
  simp [List.take_left]

/-- C1: for every virtual-packet kind code `k`, payload `p` (its length
bounded by the protocol's `u32` length field) and negotiated maximum raw
packet size `M ≥ 1`, fragmenting the encoded stream
`[len:u32 BE][kind:u16 BE][payload]` into raw packets of at most `M` bytes
and reassembling by concatenating the fragment payloads reproduces the
encoded stream exactly, and slicing the declared length back out of the
reassembled stream reproduces `k` and `p` exactly, independent of any extra
bytes beyond the declared length. -/
theorem C1_fragment_reassemble_roundtrip (k M : Nat) (p extra : List Nat)
    (hk : k < 2 ^ 16) (hp : p.length < 2 ^ 32) (hM : 0 < M) :
    receive_bytes [] (into_raw_packets k p M)
      = .ok (be32 p.length ++ be16 k ++ p)
    ∧ sliceHeader (be32 p.length ++ be16 k ++ p ++ extra) = .ok (k, p) := by
  constructor
  · unfold into_raw_packets
    have hne : be32 p.length ++ be16 k ++ p ≠ [] := by
      simp [be32]
    have hcs := chunksList_ne_nil M (be32 p.length ++ be16 k ++ p) hne
    rcases hcs with hcs | hcs
    · rw [receive_bytes_markLast _ _ hcs, chunksList_flatten M _ hM]
      simp
    · omega
  · exact sliceHeader_encode k p extra hk hp

/-- Witness for C1 at the spec's `L = 10·M + 3` point, with `M = 2`,
kind `0x000d` and payload `10, 11, …, 32`, plus two bytes of trailing
garbage in the reassembled stream. -/
theorem C1_witness :
    receive_bytes [] (into_raw_packets 13 (List.range 23 |>.map (10 + ·)) 2)
      = .ok (be32 (List.range 23 |>.map (10 + ·)).length ++ be16 13
             ++ (List.range 23 |>.map (10 + ·)))
    ∧ sliceHeader (be32 (List.range 23 |>.map (10 + ·)).length ++ be16 13
             ++ (List.range 23 |>.map (10 + ·)) ++ [99, 98])
      = .ok (13, List.range 23 |>.map (10 + ·)) :=
  C1_fragment_reassemble_roundtrip 13 2 (List.range 23 |>.map (10 + ·)) [99, 98]
    (by decide) (by decide) (by decide)

theorem receive_respondBufSize (s : Nat) (g : List Nat) (hs : s < 2 ^ 32) :
    RawPacket.receive (0 :: 0 :: 0 :: 4 :: 2 :: (be32 s ++ g))
      = .ok (.RespondBufSize s, g) := by
  unfold RawPacket.receive RawPacket.from_payload
  simp [be32, u32_from_bytes]
  rw [if_neg (by omega), if_neg (by omega)]
  simp
  omega

/-- C2: receiving `BufferSizeResponse(s)` during buffer-size negotiation
stores `s` clamped to at most 1018 as the session's max raw packet size:
sizes above 1018 store 1018, others are stored unchanged, and the call
succeeds.  `curMax` and `req` are arbitrary; the inbound stream carries a
raw `RespondBufSize` packet advertising `s`. -/
theorem C2_buffer_size_response_clamp (curMax req s : Nat) (g : List Nat)
    (hs : s < 2 ^ 32) :
    (negotiate_packet_size curMax req (0 :: 0 :: 0 :: 4 :: 2 :: (be32 s ++ g))).finalMax
      = (if s > 1018 then 1018 else s)
    ∧ (negotiate_packet_size curMax req (0 :: 0 :: 0 :: 4 :: 2 :: (be32 s ++ g))).result
      = .ok () := by
  unfold negotiate_packet_size
  rw [receive_respondBufSize s g hs]
  simp [RawPacket.kind]

/-- Witness for C2 at the spec's three probe points: an advertised 1019 and
an advertised 2000 both store 1018, and an advertised 500 stores 500. -/
theorem C2_witness :
    (negotiate_packet_size 1019 1019 (0 :: 0 :: 0 :: 4 :: 2 :: (be32 1019 ++ []))).finalMax
      = 1018
    ∧ (negotiate_packet_size 1019 1019 (0 :: 0 :: 0 :: 4 :: 2 :: (be32 2000 ++ []))).finalMax
      = 1018
    ∧ (negotiate_packet_size 1019 1019 (0 :: 0 :: 0 :: 4 :: 2 :: (be32 500 ++ []))).finalMax
      = 500 := by
  refine ⟨?_, ?_, ?_⟩
  · have h := (C2_buffer_size_response_clamp 1019 1019 1019 [] (by decide)).1
    simpa using h
  · have h := (C2_buffer_size_response_clamp 1019 1019 2000 [] (by decide)).1
    simpa using h
  · have h := (C2_buffer_size_response_clamp 1019 1019 500 [] (by decide)).1
    simpa using h

/-- C10: whenever `negotiate_packet_size` fails — for any cause: the inbound
packet is not a `BufferSizeResponse`, its kind byte is unknown, or a
transport I/O failure — the session's max raw packet size keeps its previous
value. -/
theorem C10_negotiate_error_preserves_max (curMax req : Nat) (s : List Nat)
    (e : Err) (h : (negotiate_packet_size curMax req s).result = .error e) :
    (negotiate_packet_size curMax req s).finalMax = curMax := by
  unfold negotiate_packet_size at h ⊢
  cases hrec : RawPacket.receive s with
  | error e2 => simp [hrec]
  | ok pr =>
    obtain ⟨p, rest⟩ := pr
    simp only at h ⊢
    split_ifs at h ⊢ with hkind
    · rfl
    · cases p <;> simp_all

/-- Witness for C10 on all three failure causes: an unknown raw kind byte
(9), a received `VirtualDataAcknowledge` instead of a `BufferSizeResponse`,
and an exhausted transport; the stored size 777 is kept each time. -/
theorem C10_witness :
    (negotiate_packet_size 777 1019 [0, 0, 0, 0, 9]).finalMax = 777
    ∧ (negotiate_packet_size 777 1019 [0, 0, 0, 2, 5, 0xe0, 0]).finalMax = 777
    ∧ (negotiate_packet_size 777 1019 []).finalMax = 777 :=
  ⟨C10_negotiate_error_preserves_max 777 1019 [0, 0, 0, 0, 9]
      (.unknownRawKind 9) rfl,
   C10_negotiate_error_preserves_max 777 1019 [0, 0, 0, 2, 5, 0xe0, 0]
      (.wrongRawKind .BufSizeAlloc .VirtDataAck) rfl,
   C10_negotiate_error_preserves_max 777 1019 [] .ioError rfl⟩

/-- C5 contradicted on the code: the `Calculator` constructor's initial
negotiation sends `BufferSizeRequest(1019)`, not 1024. -/
theorem C5_counterexample :
    (calculator_new []).sent = [RawPacket.RequestBufSize 1019]
    ∧ (1019 : Nat) ≠ 1024 :=
  ⟨rfl, by decide⟩

/-- C5 amended: creating a session performs an initial buffer-size
negotiation whose `BufferSizeRequest` asks for exactly 1019 bytes, whatever
the inbound stream holds. -/
theorem C5_initial_request_is_1019 (s : List Nat) :
    (calculator_new s).sent = [RawPacket.RequestBufSize 1019] := by
  unfold calculator_new negotiate_packet_size
  cases hrec : RawPacket.receive s with
  | error e => simp
  | ok pr =>
    obtain ⟨p, rest⟩ := pr
    simp only
    split_ifs with hkind
    · rfl
    · cases p <;> rfl

/-- C6: while waiting for a per-fragment acknowledgment, a received
`DataAcknowledge` raw packet whose payload word is the sentinel `0xE000`
makes the wait succeed (the next fragment may be sent), and any other
payload value fails it with the explicit `InvalidPayload` acknowledgment
error rather than succeeding silently. -/
theorem C6_acknowledge_sentinel (m w : Nat) (rest : List RawPacket) :
    wait_for_acknowledge m (RawPacket.VirtualDataAcknowledge w :: rest)
      = if w = 0xe000 then .ok () else .error .invalidPayload := by
  by_cases h : w = 0xe000 <;> simp [wait_for_acknowledge, h]

/-- C3 contradicted on the code: when `request_directory` receives an
`Error` virtual packet it does not return the device error itself — its
receive-loop `match` has no `Error` arm, so the packet falls into the
catch-all and the call fails with `WrongPacketKind` (expected
`VariableHeader`, received `Error`) instead. -/
theorem C3_counterexample :
    request_directory [VirtualPacket.Error DeviceError.OutOfMemory]
      = .error (.wrongVtlKind .VariableHeader .Error)
    ∧ Err.wrongVtlKind .VariableHeader .Error
      ≠ Err.deviceError DeviceError.OutOfMemory :=
  ⟨rfl, by decide⟩

/-- C3 amended: for every device error `e`, `request_directory` receiving an
`Error(e)` virtual packet while collecting entries — directly or right after
an absorbed `Wait` — aborts with the wire-malformation error
`WrongPacketKind(expected: VariableHeader, received: Error)`, whatever was
accumulated so far; the device error `e` itself is not surfaced. -/
theorem C3_error_aborts_with_wrong_kind (e : DeviceError) (vars : List Variable)
    (sleeps ms : Nat) (rest : List VirtualPacket) :
    request_directory_loop vars sleeps (VirtualPacket.Error e :: rest)
      = .error (.wrongVtlKind .VariableHeader .Error)
    ∧ request_directory_loop vars sleeps
        (VirtualPacket.Wait ms :: VirtualPacket.Error e :: rest)
      = .error (.wrongVtlKind .VariableHeader .Error) :=
  ⟨rfl, rfl⟩

/-- C4: on the scripted inbound sequence `[VariableHeader(A), Wait(50),
VariableHeader(B), EndOfTransmission]`, `request_directory` returns exactly
`[A, B]` in order, after one 100 ms sleep absorbed for the `Wait` message. -/
theorem C4_scripted_directory_listing (A B : Variable) :
    request_directory [VirtualPacket.VariableHeader A, VirtualPacket.Wait 50,
        VirtualPacket.VariableHeader B, VirtualPacket.EndOfTransmission]
      = .ok ([A, B], 1) :=
  rfl

/-- C7 contradicted on the code: decoding an `Error` virtual packet whose
code (here `0x0000`) is outside the `DeviceError` set hits
`DeviceError::from_repr(..).unwrap()` — a panic, not a typed
`UnknownDeviceError` (no such error type exists in the code). -/
theorem C7_counterexample :
    VirtualPacket.from_payload .Error [0, 0] = .error .panic :=
  rfl

/-- C7 amended: for every 16-bit code outside the closed `DeviceError` set,
decoding a received `Error` virtual packet carrying that code panics
(`unwrap` on `None`) rather than failing with a typed error. -/
theorem C7_unknown_device_error_panics (c : Nat) (hc : c < 2 ^ 16)
    (hu : DeviceError.from_repr c = none) :
    VirtualPacket.from_payload .Error (be16 c) = .error .panic := by
  have hlen : ¬((be16 c).length < 2) := by simp [be16]
  have htake : (be16 c).take 2 = be16 c := rfl
  simp only [VirtualPacket.from_payload]
  rw [if_neg hlen, htake, u16_be16 c hc, hu]

/-- Witness for C7 at code `0x0005`, which is outside the `DeviceError`
set. -/
theorem C7_witness :
    VirtualPacket.from_payload .Error (be16 5) = .error .panic :=
  C7_unknown_device_error_panics 5 (by decide) rfl

/-- C8 contradicted on the code: a reassembled stream declaring 5 payload
bytes but 6 bytes long makes `VirtualPacket::receive` panic at the slice
`bytes[6..6+size]` — no typed wire-malformation error with
expected-vs-received context is produced (the `WrongPacketSize` type in
`raw.rs` is never used). -/
theorem C8_counterexample :
    decode_assembled [0, 0, 0, 5, 0, 0x12] = .error .panic :=
  rfl

/-- C8 amended: for every reassembled virtual-packet byte stream shorter
than 6 plus its declared payload length, `VirtualPacket::receive` panics
(slice out of range) instead of failing with a typed wire-malformation
error. -/
theorem C8_short_stream_panics (bytes : List Nat)
    (h : bytes.length < 6 + u32_from_bytes (bytes.take 4)) :
    decode_assembled bytes = .error .panic := by
  have hs : sliceHeader bytes = .error .panic := by
    unfold sliceHeader
    split_ifs with h4 h6 <;> rfl
  unfold decode_assembled
  rw [hs]

/-- Witness for C8: a 7-byte reassembled stream declaring 5 payload bytes
(total needed: 11). -/
theorem C8_witness :
    decode_assembled [0, 0, 0, 5, 0, 0x12, 7] = .error .panic :=
  C8_short_stream_panics [0, 0, 0, 5, 0, 0x12, 7] (by decide)

theorem calcRead_nonempty_reads (c : Calculator) (n : Nat) (t : List (List Nat))
    (hb : c.buffer ≠ []) (hle : ¬c.max_raw_packet_size < n) :
    readsOf (calcRead c n t) = 0 := by
  rw [calcRead.eq_def]
  by_cases h1 : c.buffer.length < n ∧ c.buffer ≠ []
  · rw [if_pos h1]
    rfl
  · rw [if_neg h1, dif_neg hle]
    have hE : c.buffer.isEmpty = false := by
      simp [List.isEmpty_iff, hb]
    simp only [hE, Bool.false_eq_true, if_false]
    split_ifs <;> rfl

/-- C9: for every session state, requested byte count and transport script:
a transport bulk read happens only when the read-ahead buffer is empty (a
call starting with a non-empty buffer performs none), and a logical read
larger than the current negotiated max raw packet size is not issued as one
oversized read — the call reduces to a read of at most the negotiated size,
so completing the logical read takes multiple transport reads across
successive calls. -/
theorem C9_read_drain_and_split (c : Calculator) (n : Nat) (t : List (List Nat)) :
    (c.buffer ≠ [] → readsOf (calcRead c n t) = 0)
    ∧ (c.buffer = [] → c.max_raw_packet_size < n →
        calcRead c n t = calcRead c c.max_raw_packet_size t
        ∧ dataLenOf (calcRead c n t) ≤ c.max_raw_packet_size) := by
  constructor
  · intro hb
    by_cases h1 : c.buffer.length < n ∧ c.buffer ≠ []
    · rw [calcRead.eq_def, if_pos h1]
      rfl
    · by_cases h2 : c.max_raw_packet_size < n
      · rw [calcRead.eq_def, if_neg h1, dif_pos h2]
        exact calcRead_nonempty_reads c _ t hb (lt_irrefl _)
      · exact calcRead_nonempty_reads c n t hb h2
  · intro hbe hmax
    have h1 : ¬(c.buffer.length < n ∧ c.buffer ≠ []) := by
      simp [hbe]
    have heq : calcRead c n t = calcRead c c.max_raw_packet_size t := by
      rw [calcRead.eq_def, if_neg h1, dif_pos hmax]
    refine ⟨heq, ?_⟩
    rw [heq, calcRead.eq_def]
    have h1m : ¬(c.buffer.length < c.max_raw_packet_size ∧ c.buffer ≠ []) := by
      simp [hbe]
    rw [if_neg h1m, dif_neg (lt_irrefl _)]
    have hE : c.buffer.isEmpty = true := by
      simp [List.isEmpty_iff, hbe]
    simp only [hE, if_true]
    cases t with
    | nil => simp [dataLenOf]
    | cons chunk rest =>
      simp only
      split_ifs with hlen
      · simp [dataLenOf]
      · simp only [dataLenOf, List.length_take]
        omega

/-- Witness for C9: a call on a session holding three buffered bytes
performs no transport read; a 5-byte request against a negotiated size of 2
reduces to the 2-byte read and returns at most 2 bytes. -/
theorem C9_witness :
    readsOf (calcRead ⟨10, [1, 2, 3]⟩ 5 [[9, 9]]) = 0
    ∧ (calcRead ⟨2, []⟩ 5 [[7, 7, 7]] = calcRead ⟨2, []⟩ 2 [[7, 7, 7]]
       ∧ dataLenOf (calcRead ⟨2, []⟩ 5 [[7, 7, 7]]) ≤ 2) :=
  ⟨(C9_read_drain_and_split ⟨10, [1, 2, 3]⟩ 5 [[9, 9]]).1 (by decide),
   (C9_read_drain_and_split ⟨2, []⟩ 5 [[7, 7, 7]]).2 rfl (by decide)⟩
